import Mathlib

/-!
Verification of the Flora1 plant-irrigation controller (directory 09_software)
against its natural-language specification.

The Python modules sensor.py, pump.py, irrigation.py, alert.py and the main
loop of flora.py are shallowly embedded below.  Machine integers and Python
ints are modelled as Nat or Int; timestamps (Python floats from time.time and
datetime values) are modelled at integer granularity, which is faithful for
every comparison the code performs.  Python runtime exceptions (NameError,
AttributeError) raised by the code are modelled with an Except monad: the
source contains two genuine slips (an undefined lowercase name in alert.py and
an attribute lookup on the imported time function plus an undefined name
pumps in irrigation.py) which make some paths raise instead of returning.
-/

/-- Runtime exceptions raised by the embedded Python code. -/
inductive PyError where
  | nameError (n : String)
  | attributeError (n : String)
deriving DecidableEq

/-! ## sensor.py -/

/-- Embedding of the Sensor class (sensor.py).  Numeric sensor values and
plant limits are modelled as Int (moisture, conductivity, light and battery
are Python ints in the source; temperature, a Python float, only ever enters
ordered comparisons, so an ordered carrier is all that is needed).  Only the
fields touched by update_sensor and the comparison flags are carried. -/
structure Sensor where
  pump : Nat
  tstamp : Int
  batt_min : Int
  temp : Int
  cond : Int
  moist : Int
  light : Int
  batt : Int
  temp_min : Int
  cond_min : Int
  moist_lo : Int
  moist_min : Int
  light_min : Int
  temp_max : Int
  cond_max : Int
  moist_hi : Int
  moist_max : Int
  light_irr : Int
  light_max : Int
  batt_ul : Bool
  temp_ul : Bool
  temp_oh : Bool
  cond_ul : Bool
  cond_oh : Bool
  moist_ul : Bool
  moist_ll : Bool
  moist_hl : Bool
  moist_oh : Bool
  light_ul : Bool
  light_il : Bool
  light_oh : Bool

/-- Embedding of Sensor.update_sensor (sensor.py lines 170-200): store the new
reading, stamp the reception time and recompute every comparison flag. -/
def update_sensor (s : Sensor) (temp cond moist light batt now : Int) : Sensor :=
  { s with
    temp := temp
    cond := cond
    moist := moist
    light := light
    batt := batt
    tstamp := now
    batt_ul := decide (batt < s.batt_min)
    temp_ul := decide (temp < s.temp_min)
    temp_oh := decide (temp > s.temp_max)
    cond_ul := decide (cond < s.cond_min)
    cond_oh := decide (cond > s.cond_max)
    moist_ul := decide (moist < s.moist_min)
    moist_ll := decide (moist < s.moist_lo) && decide (moist ≥ s.moist_min)
    moist_hl := decide (moist > s.moist_hi) && decide (moist ≤ s.moist_max)
    moist_oh := decide (moist > s.moist_max)
    light_ul := decide (light < s.light_min)
    light_il := decide (light > s.light_irr)
    light_oh := decide (light > s.light_max) }

/-! ## pump.py -/

/-- Embedding of the hold loop inside Pump.power_on (pump.py lines 122-129).
The tank-empty GPIO line and the driver-status GPIO line are modelled as
read traces indexed by read count: emptyR 0 is the reading taken at call
time, emptyR (k+1) the reading in loop iteration k, and drvR k the driver
status read in loop iteration k.  Returns the status code the loop leaves in
self.status (0 normal, 1 tank empty, 2 driver fault). -/
def powerOnLoop (emptyR drvR : Nat → Bool) : Nat → Nat → Nat
  | _, 0 => 0
  | k, r + 1 =>
    if drvR k ≠ true then 2
    else if emptyR (k + 1) then 1
    else powerOnLoop emptyR drvR (k + 1) r

/-- Embedding of Pump.power_on (pump.py lines 104-133).  The second component
records the sequence of levels written to the pump-power GPIO output
(true = HIGH, false = LOW).  If the tank reads empty at call time the method
returns status 1 without writing the output at all; otherwise it writes HIGH,
runs the hold loop and always writes LOW on exit. -/
def power_on (emptyR drvR : Nat → Bool) (on_time : Nat) : Nat × List Bool :=
  if emptyR 0 then (1, [])
  else (powerOnLoop emptyR drvR 0 on_time, [true, false])

/-- Constantly-true GPIO read trace (used to instantiate theorems). -/
def constTrue : Nat → Bool := fun _ => true

/-- Constantly-false GPIO read trace (used to instantiate theorems). -/
def constFalse : Nat → Bool := fun _ => false

/-! ## Bitwise helper

Python evaluates a AND NOT b on non-negative big integers in alert.py
(new_vector and complement of old_vector).  On non-negative integers this
equals the bitwise difference, which we express with the kernel-friendly
identity a AND NOT b = a XOR (a AND b). -/

/-- Python expression a et-bitwise complement-of b on non-negative ints
(alert.py line 139): the bits set in a but not in b. -/
def pyAndNot (a b : Nat) : Nat := a ^^^ (a &&& b)

theorem pyAndNot_self (a : Nat) : pyAndNot a a = 0 := by
  have h : a &&& a = a := by
    apply Nat.eq_of_testBit_eq
    intro i
    simp [Nat.testBit_land]
  simp [pyAndNot, h]

theorem pyAndNot_zero_left (b : Nat) : pyAndNot 0 b = 0 := by
  simp [pyAndNot]

theorem ne_zero_of_pyAndNot_ne_zero {a b : Nat} (h : pyAndNot a b ≠ 0) : a ≠ 0 := by
  intro ha
  subst ha
  exact h (pyAndNot_zero_left b)

/-! Claims C9 and C10 -/

/-- C9: if the tank reads empty at the moment power_on is invoked, power_on
returns status 1 (tank empty) immediately and never writes the pump-power
GPIO line, in particular never drives it HIGH. -/
theorem power_on_tank_empty (emptyR drvR : Nat → Bool) (on_time : Nat)
    (h : emptyR 0 = true) :
    power_on emptyR drvR on_time = (1, []) ∧
      true ∉ (power_on emptyR drvR on_time).2 := by
  constructor
  · simp [power_on, h]
  · simp [power_on, h]

/-- Witness for power_on_tank_empty at a concrete input: tank always empty,
driver status always low, requested on-time 7 seconds. -/
theorem power_on_tank_empty_witness :
    power_on constTrue constFalse 7 = (1, []) ∧
      true ∉ (power_on constTrue constFalse 7).2 :=
  power_on_tank_empty constTrue constFalse 7 rfl

/-- C10: after every call to update_sensor the four moisture comparison flags
are pairwise consistent with the four-tier band: moist_ul and moist_ll are
never both true, moist_hl and moist_oh are never both true, moist_ll holds
exactly when moist_min is at most the reading and the reading is below
moist_lo, and moist_hl holds exactly when the reading is above moist_hi and
at most moist_max. -/
theorem update_sensor_moist_flags_consistent (s : Sensor)
    (temp cond moist light batt now : Int) :
    ¬((update_sensor s temp cond moist light batt now).moist_ul = true ∧
        (update_sensor s temp cond moist light batt now).moist_ll = true) ∧
    ¬((update_sensor s temp cond moist light batt now).moist_hl = true ∧
        (update_sensor s temp cond moist light batt now).moist_oh = true) ∧
    ((update_sensor s temp cond moist light batt now).moist_ll = true ↔
        s.moist_min ≤ moist ∧ moist < s.moist_lo) ∧
    ((update_sensor s temp cond moist light batt now).moist_hl = true ↔
        s.moist_hi < moist ∧ moist ≤ s.moist_max) := by
  simp [update_sensor]
  omega

/-! ## irrigation.py -/

/-- Per-sensor inputs consumed by Irrigation.auto_irrigation: the pump number
the sensor is assigned to (1 or 2 when assigned, 0 when unassigned), the
validity predicate and the three comparison flags the scan reads. -/
structure IrrSensor where
  pump : Nat
  valid : Bool
  light_il : Bool
  moist_oh : Bool
  moist_ul : Bool
deriving DecidableEq

/-- Embedding of the per-pump sensor scan of auto_irrigation (irrigation.py
lines 110-127) for pump index p (0-based).  The Python loop walks the sensor
dictionary in insertion order; a sensor not assigned to this pump is skipped,
the first assigned sensor that is invalid, over the light irrigation limit or
over the moisture range stops the scan leaving activate false, and the first
assigned sensor under the moisture range stops the scan setting activate. -/
def scanPump (sensors : List IrrSensor) (p : Nat) : Bool :=
  match sensors with
  | [] => false
  | s :: rest =>
    if s.pump ≠ p + 1 then scanPump rest p
    else if s.valid = false then false
    else if s.light_il then false
    else if s.moist_oh then false
    else if s.moist_ul then true
    else scanPump rest p

/-- Embedding of the night-time test of auto_irrigation (irrigation.py lines
99-103).  Times are seconds of the current day; the two anchors are built
from the configured hour and minute with seconds zeroed, so the datetime
comparison reduces exactly to this comparison of seconds-of-day. -/
def nightSkip (tod nightBegin nightEnd : Nat) : Bool :=
  decide (tod ≥ nightBegin) || decide (tod < nightEnd)

/-- Modelled from the spec: membership of a time of day in the configured
night window [night_begin, night_end) read as a wrap-around interval that may
cross midnight (spec section 4.2 step 1).  This definition follows the words
of the specification and is compared against nightSkip, the condition the
source actually computes. -/
def inNightWindow (tod nightBegin nightEnd : Nat) : Bool :=
  if nightBegin ≤ nightEnd then decide (nightBegin ≤ tod) && decide (tod < nightEnd)
  else decide (tod ≥ nightBegin) || decide (tod < nightEnd)

/-- Embedding of the scheduling loop of auto_irrigation (irrigation.py lines
129-148).  For each pump with activate set, the Python code evaluates
time.time() - but the module imported the function time by from time import
time, so the attribute lookup time.time raises AttributeError (and the name
pumps it would read next is likewise undefined, the parameter being pump).
Hence the loop raises on the first eligible pump and only returns the
all-false schedule when no pump is eligible. -/
def scheduleLoop (activate : List Bool) : Except PyError (List Bool) :=
  if activate.any id then .error (.attributeError "time.time")
  else .ok [false, false]

/-- Embedding of Irrigation.auto_irrigation (irrigation.py lines 73-148):
night-time gate, per-pump activation scan, then the scheduling loop. -/
def auto_irrigation (tod nightBegin nightEnd : Nat) (sensors : List IrrSensor) :
    Except PyError (List Bool) :=
  if nightSkip tod nightBegin nightEnd then .ok [false, false]
  else scheduleLoop [scanPump sensors 0, scanPump sensors 1]

/-- Embedding of the assignment at flora.py line 526: the main loop stores
the value returned by auto_irrigation into settings.irr_scheduled; when the
call raises, the assignment never happens and the previous value remains. -/
def irrScheduledAfter (prev : List Bool) (r : Except PyError (List Bool)) : List Bool :=
  match r with
  | .ok sched => sched
  | .error _ => prev

/-! Claim C3 -/

/-- Sensor configuration for claim C3: one sensor assigned to pump 1, valid,
light below the irrigation limit, moisture under range - pump 1 is eligible. -/
def c3Sensors : List IrrSensor :=
  [{ pump := 1, valid := true, light_il := false, moist_oh := false, moist_ul := true }]

/-- C3 (code bug): with pump 1 eligible at noon (43200 s) outside a 22:00 to
06:00 night window, auto_irrigation is claimed to return scheduled true when
the rest period has not elapsed; instead the code raises AttributeError on
the expression time.time() (irrigation.py line 132, with the undefined name
pumps next on the same line), whatever the rest timer holds. -/
theorem auto_irrigation_rest_branch_raises :
    auto_irrigation 43200 79200 21600 c3Sensors = .error (.attributeError "time.time") := by
  rfl

/-! Claim C4 -/

/-- Sensor configuration for claim C4: pump 1 eligible, so that reaching the
per-pump evaluation is observable (the scheduling loop raises). -/
def c4Sensors : List IrrSensor :=
  [{ pump := 1, valid := true, light_il := false, moist_oh := false, moist_ul := true }]

/-- Counterexample to C4: with night_begin 01:00 (3600 s) and night_end 05:00
(18000 s) the window does not cross midnight, and 06:00 (21600 s) lies
outside the wrap-around interval, yet the code skips the per-pump evaluation
(nightSkip holds because 21600 is at least 3600), returning the all-false
schedule instead of evaluating the eligible pump. -/
theorem night_window_claim_false :
    nightSkip 21600 3600 18000 = true ∧
      inNightWindow 21600 3600 18000 = false ∧
      auto_irrigation 21600 3600 18000 c4Sensors = .ok [false, false] := by
  exact ⟨by decide, by decide, rfl⟩

/-- C4 as amended: the code skips exactly when tod is at least night_begin or
below night_end; this coincides with the wrap-around window exactly when the
window crosses midnight (night_end < night_begin), and when night_begin is at
most night_end the code skips at every time of day, so the per-pump
evaluation never proceeds. -/
theorem night_window_amended (tod nightBegin nightEnd : Nat) :
    (nightEnd < nightBegin →
      nightSkip tod nightBegin nightEnd = inNightWindow tod nightBegin nightEnd) ∧
    (nightBegin ≤ nightEnd → nightSkip tod nightBegin nightEnd = true) ∧
    (nightSkip tod nightBegin nightEnd = false →
      ∀ sensors, auto_irrigation tod nightBegin nightEnd sensors =
        scheduleLoop [scanPump sensors 0, scanPump sensors 1]) := by
  refine ⟨?_, ?_, ?_⟩
  · intro h
    simp [nightSkip, inNightWindow, Nat.not_le.mpr h]
  · intro h
    simp only [nightSkip, Bool.or_eq_true, decide_eq_true_eq]
    omega
  · intro h sensors
    simp [auto_irrigation, h]

/-- Witness for night_window_amended at a concrete input: 02:00 with the
window 22:00 to 06:00 (crossing midnight) is skipped, and the skip condition
agrees with wrap-around window membership. -/
theorem night_window_amended_witness :
    nightSkip 7200 79200 21600 = inNightWindow 7200 79200 21600 :=
  (night_window_amended 7200 79200 21600).1 (by decide)

/-! Claim C5 -/

/-- Sensor configuration refuting C5: the first sensor assigned to pump 1 is
valid and under the moisture range, the second sensor assigned to pump 1 has
timed out (invalid). -/
def c5Sensors : List IrrSensor :=
  [{ pump := 1, valid := true, light_il := false, moist_oh := false, moist_ul := true },
   { pump := 1, valid := false, light_il := false, moist_oh := false, moist_ul := false }]

/-- Counterexample to C5: a sensor assigned to pump 1 is invalid, yet the
activation decision of auto_irrigation for pump 1 (the activate flag computed
by the scan at irrigation.py lines 108-127) is true, because the scan stops
at the first under-range sensor before ever reaching the invalid one - so the
claimed order independence fails. -/
theorem invalid_sensor_claim_false :
    (c5Sensors.any fun s => s.pump == 1 && !s.valid) = true ∧
      scanPump c5Sensors 0 = true := by
  decide

/-- C5 as amended: the invalid-sensor bail-out is order dependent - if some
sensor assigned to the pump is invalid and no sensor assigned to the same
pump earlier in scan order is valid, under the light limit, within the upper
moisture range and under the lower moisture range (the configuration that
stops the scan with activate true), then the pump is not activated this
tick. -/
theorem invalid_sensor_amended (pre post : List IrrSensor) (s : IrrSensor) (p : Nat)
    (hassign : s.pump = p + 1) (hinvalid : s.valid = false)
    (hpre : ∀ t ∈ pre, ¬(t.pump = p + 1 ∧ t.valid = true ∧ t.light_il = false ∧
      t.moist_oh = false ∧ t.moist_ul = true)) :
    scanPump (pre ++ s :: post) p = false := by
  induction pre with
  | nil =>
    simp [scanPump, hassign, hinvalid]
  | cons t rest ih =>
    have ht := hpre t (List.mem_cons_self t rest)
    have hrest : ∀ u ∈ rest, ¬(u.pump = p + 1 ∧ u.valid = true ∧ u.light_il = false ∧
        u.moist_oh = false ∧ u.moist_ul = true) :=
      fun u hu => hpre u (List.mem_cons_of_mem t hu)
    by_cases hp : t.pump = p + 1
    · cases hv : t.valid with
      | false => simp [scanPump, hp, hv]
      | true =>
        cases hl : t.light_il with
        | true => simp [scanPump, hp, hv, hl]
        | false =>
          cases hmo : t.moist_oh with
          | true => simp [scanPump, hp, hv, hl, hmo]
          | false =>
            cases hmu : t.moist_ul with
            | true => exact absurd ⟨hp, hv, hl, hmo, hmu⟩ ht
            | false => simpa [scanPump, hp, hv, hl, hmo, hmu] using ih hrest
    · simpa [scanPump, hp] using ih hrest

/-- Concrete sensor assigned to pump 2 used by the C5 witness. -/
def c5PreSensor : IrrSensor :=
  { pump := 2
    valid := true
    light_il := false
    moist_oh := false
    moist_ul := true }

/-- Concrete invalid sensor assigned to pump 1 used by the C5 witness. -/
def c5InvalidSensor : IrrSensor :=
  { pump := 1
    valid := false
    light_il := false
    moist_oh := false
    moist_ul := true }

/-- Witness for invalid_sensor_amended at a concrete input: one sensor for
the other pump precedes the invalid sensor of pump 1; pump 1 is not
activated. -/
theorem invalid_sensor_amended_witness :
    scanPump ([c5PreSensor] ++ c5InvalidSensor :: []) 0 = false :=
  invalid_sensor_amended [c5PreSensor] [] c5InvalidSensor 0 rfl rfl (by decide)

/-! Claim C8 -/

/-- Counterexample to C8: at 01:00 (3600 s) inside the night window 00:50
(3000 s) to 02:00 (7200 s), the claim says the scheduled flags visible to the
caller keep their previous values; but auto_irrigation returns the all-false
list and flora.py line 526 assigns it, so previously true flags are cleared. -/
theorem night_frame_claim_false :
    nightSkip 3600 3000 7200 = true ∧
      irrScheduledAfter [true, true] (auto_irrigation 3600 3000 7200 []) ≠ [true, true] := by
  decide

/-- C8 as amended: inside the night window auto_irrigation evaluates no pump
(the result does not depend on the sensors at all) and returns the all-false
schedule, which the caller assigns to the scheduled flags - so the flags are
reset to false rather than left unchanged. -/
theorem night_frame_amended (tod nightBegin nightEnd : Nat) (prev : List Bool)
    (sensors : List IrrSensor) (h : nightSkip tod nightBegin nightEnd = true) :
    auto_irrigation tod nightBegin nightEnd sensors = .ok [false, false] ∧
      irrScheduledAfter prev (auto_irrigation tod nightBegin nightEnd sensors) =
        [false, false] ∧
      (∀ sensors', auto_irrigation tod nightBegin nightEnd sensors =
        auto_irrigation tod nightBegin nightEnd sensors') := by
  have hskip : auto_irrigation tod nightBegin nightEnd sensors = .ok [false, false] := by
    simp [auto_irrigation, h]
  refine ⟨hskip, by simp [hskip, irrScheduledAfter], ?_⟩
  intro sensors'
  simp [auto_irrigation, h]

/-- Witness for night_frame_amended at a concrete input. -/
theorem night_frame_amended_witness :
    auto_irrigation 3600 3000 7200 c3Sensors = .ok [false, false] ∧
      irrScheduledAfter [true, true] (auto_irrigation 3600 3000 7200 c3Sensors) =
        [false, false] ∧
      (∀ sensors', auto_irrigation 3600 3000 7200 c3Sensors =
        auto_irrigation 3600 3000 7200 sensors') :=
  night_frame_amended 3600 3000 7200 [true, true] c3Sensors (by decide)

/-! ## alert.py

The Alert class carries per-instance state (mode, defer and repeat durations,
tstamp, flag, previous state vectors, previous system status) plus one
class-level attribute Alert.alert_tstamp shared by every instance - the time
the most recent alert of any category fired.  The shared attribute is
threaded through every call below as the explicit value g, and each call
returns its updated value.  check_sensors and check_system differ only in how
the change and active signals and the new state vector are computed; the rest
of both method bodies is line-for-line identical in the source, embedded once
as alertStep. -/

/-- Per-instance state of the Alert class (alert.py constructor lines
79-89). -/
structure AlertState where
  mode : Nat
  defer_time : Int
  repeat_time : Int
  tstamp : Int
  flag : Bool
  val_ul : Nat
  val_oh : Nat
  status : Bool

/-- State-vector construction from per-sensor booleans with bit i for the
i-th sensor of the dictionary (alert.py lines 130-136). -/
def mkVecAux : List Bool → Nat → Nat
  | [], _ => 0
  | f :: rest, i => (if f then (1 <<< i) else 0) ||| mkVecAux rest (i + 1)

/-- State vector for a list of per-sensor flags, starting at bit 0. -/
def mkVec (flags : List Bool) : Nat := mkVecAux flags 0

/-- New val_ul vector: bit per sensor whose first monitored attribute is
set.  Sensor inputs are pairs (attr1 value, attr2 value). -/
def vecUl (sens : List (Bool × Bool)) : Nat := mkVec (sens.map Prod.fst)

/-- New val_oh vector: bit per sensor whose second monitored attribute is
set, or zero when the method is called without a second attribute
(attr2 = None keeps val_oh at zero, alert.py lines 127 and 134-136). -/
def vecOh (hasAttr2 : Bool) (sens : List (Bool × Bool)) : Nat :=
  if hasAttr2 then mkVec (sens.map Prod.snd) else 0

/-- Embedding of Alert.repeat_expired (alert.py lines 91-98). -/
def repeat_expired (st : AlertState) (now : Int) : Bool :=
  decide (now - st.tstamp > st.repeat_time)

/-- Embedding of Alert.defer_expired (alert.py lines 100-107); g is the
class-level Alert.alert_tstamp. -/
def defer_expired (st : AlertState) (g now : Int) : Bool :=
  decide (now - g > st.defer_time)

/-- Level change 0 to 1 in either state vector (alert.py line 139): Python
truthiness of new-vector AND NOT old-vector, for each of the two vectors. -/
def changeB (st : AlertState) (sens : List (Bool × Bool)) (hasAttr2 : Bool) : Bool :=
  decide (pyAndNot (vecUl sens) st.val_ul ≠ 0) ||
    decide (pyAndNot (vecOh hasAttr2 sens) st.val_oh ≠ 0)

/-- Level 1 anywhere in the new state vectors (alert.py line 142). -/
def activeB (sens : List (Bool × Bool)) (hasAttr2 : Bool) : Bool :=
  decide (vecUl sens ≠ 0) || decide (vecOh hasAttr2 sens ≠ 0)

/-- Alert decision taken inside the change branch (alert.py lines 148-157):
modes 1 and 2 fire immediately, modes 3 and 4 fire only when the global
defer time has expired, any other mode never fires. -/
def fireOnEdge (st : AlertState) (g now : Int) : Bool :=
  if st.mode = 1 ∨ st.mode = 2 then true
  else if st.mode = 3 ∨ st.mode = 4 then defer_expired st g now
  else false

/-- Embedding of the active/inactive tail shared by check_sensors (alert.py
lines 159-188) and check_system (lines 228-257).  st1 already carries the
updates made by the change branch; alert1 is the alert flag it computed.
When the condition is active, mode 2 with a running timestamp and an expired
repeat timer reaches the statement alert = true with the undefined lowercase
name true (alert.py lines 165 and 234), which raises NameError; modes 3 and 4
with the flag latched and the global defer expired fire, restart the
timestamp and for mode 3 clear the flag.  When inactive, timestamp and flag
are cleared.  Any fire stores now into the class-level alert timestamp. -/
def activePhase (alert1 : Bool) (st1 : AlertState) (g now : Int) (active : Bool) :
    Except PyError (Bool × AlertState × Int) :=
  if active then
    if st1.mode = 2 ∧ st1.tstamp ≠ 0 ∧ repeat_expired st1 now = true then
      .error (.nameError "true")
    else if (st1.mode = 3 ∨ st1.mode = 4) ∧ st1.flag = true then
      (if defer_expired st1 g now then
        .ok (true, { st1 with tstamp := now, flag := if st1.mode = 3 then false else st1.flag }, now)
      else .ok (alert1, st1, if alert1 then now else g))
    else .ok (alert1, st1, if alert1 then now else g)
  else
    .ok (alert1, { st1 with tstamp := 0, flag := false }, if alert1 then now else g)

/-- Body shared by check_sensors and check_system after the new state vector
(already stored in stv) and the change and active signals are known: the
change branch (alert.py lines 144-157 and 213-226) latches timestamp and
flag and computes the immediate alert decision, then the active/inactive
tail runs. -/
def alertStep (stv : AlertState) (g : Int) (change active : Bool) (now : Int) :
    Except PyError (Bool × AlertState × Int) :=
  if change then
    activePhase (fireOnEdge stv g now) { stv with tstamp := now, flag := true } g now active
  else
    activePhase false stv g now active

/-- Embedding of Alert.check_sensors (alert.py lines 109-188).  Returns the
alert flag, the updated instance state and the updated class-level alert
timestamp, or the NameError the mode 2 repeat path raises. -/
def check_sensors (st : AlertState) (g : Int) (sens : List (Bool × Bool))
    (hasAttr2 : Bool) (now : Int) : Except PyError (Bool × AlertState × Int) :=
  alertStep { st with val_ul := vecUl sens, val_oh := vecOh hasAttr2 sens } g
    (changeB st sens hasAttr2) (activeB sens hasAttr2) now

/-- Embedding of Alert.check_system (alert.py lines 190-257). -/
def check_system (st : AlertState) (g : Int) (status : Bool) (now : Int) :
    Except PyError (Bool × AlertState × Int) :=
  alertStep { st with status := status } g (status && !st.status) status now

/-- Sequence of check_sensors calls on one Alert instance (as the main loop
of flora.py performs once per period), with the class-level alert timestamp
threaded through; returns the list of alert flags the calls returned, or the
first exception raised.  Each element of the call list is (sensor flags,
second attribute present, current time). -/
def firedSeq (st : AlertState) (g : Int) :
    List (List (Bool × Bool) × Bool × Int) → Except PyError (List Bool)
  | [] => .ok []
  | (sens, h2, now) :: rest =>
    match check_sensors st g sens h2 now with
    | .error e => .error e
    | .ok (a, st1, g1) =>
      match firedSeq st1 g1 rest with
      | .error e => .error e
      | .ok outs => .ok (a :: outs)

/-- Sequence of check_system calls on one Alert instance, threading the
class-level alert timestamp; elements are (status flag, current time). -/
def runSystem (st : AlertState) (g : Int) :
    List (Bool × Int) → Except PyError (List Bool)
  | [] => .ok []
  | (status, now) :: rest =>
    match check_system st g status now with
    | .error e => .error e
    | .ok (a, st1, g1) =>
      match runSystem st1 g1 rest with
      | .error e => .error e
      | .ok outs => .ok (a :: outs)

/-- No call of the list presents a rising edge relative to the running state
vectors: each input vector has no bit outside the previous one. -/
def noNewEdge : Nat → Nat → List (List (Bool × Bool) × Bool × Int) → Bool
  | _, _, [] => true
  | vUl, vOh, (sens, h2, _) :: rest =>
    decide (pyAndNot (vecUl sens) vUl = 0) &&
      decide (pyAndNot (vecOh h2 sens) vOh = 0) &&
      noNewEdge (vecUl sens) (vecOh h2 sens) rest

theorem active_of_change (st : AlertState) (sens : List (Bool × Bool)) (h2 : Bool)
    (h : changeB st sens h2 = true) : activeB sens h2 = true := by
  simp only [changeB, Bool.or_eq_true, decide_eq_true_eq] at h
  simp only [activeB, Bool.or_eq_true, decide_eq_true_eq]
  rcases h with h | h
  · exact Or.inl (ne_zero_of_pyAndNot_ne_zero h)
  · exact Or.inr (ne_zero_of_pyAndNot_ne_zero h)

/-! Claim C1 -/

/-- Concrete mode 2 instance for claim C1, using check_system: repeat time
10 s, defer time 1000 s, fresh state. -/
def c1SysState : AlertState :=
  { mode := 2
    defer_time := 1000
    repeat_time := 10
    tstamp := 0
    flag := false
    val_ul := 0
    val_oh := 0
    status := false }

/-- Concrete mode 2 instance for claim C1, using check_sensors. -/
def c1SenState : AlertState :=
  { mode := 2
    defer_time := 1000
    repeat_time := 10
    tstamp := 0
    flag := false
    val_ul := 0
    val_oh := 0
    status := false }

/-- C1 (code bug): a mode 2 alert whose condition goes active at t = 100
(immediate fire) and is still active at t = 200 with the 10 s repeat time
expired is claimed to return true again (repeat fire) and restart the
timer; instead both check_system and check_sensors raise NameError, because
the repeat branch assigns the undefined lowercase name true (alert.py lines
234 and 165). -/
theorem alert_mode2_repeat_raises :
    runSystem c1SysState 0 [(true, 100), (true, 200)] = .error (.nameError "true") ∧
    firedSeq c1SenState 0 [([(true, false)], false, 100), ([(true, false)], false, 200)] =
      .error (.nameError "true") := by
  exact ⟨rfl, rfl⟩

/-! Claim C2 -/

/-- C2: the defer gate of modes 3 and 4 is global.  If any alert of any
category fired at time T (the shared class attribute Alert.alert_tstamp,
threaded here as g, holds T), then an edge-triggered check_sensors call on
any mode 3 or 4 instance - in particular a different category - at time
T + e with e below defer_time returns false: defer_expired compares now
against the class-level timestamp, so the new category's fire is suppressed
until defer_time has elapsed since T.  The call still latches timestamp and
flag. -/
theorem alert_defer_gate_global (st : AlertState) (sens : List (Bool × Bool))
    (h2 : Bool) (T e : Int) (hm : st.mode = 3 ∨ st.mode = 4)
    (hedge : changeB st sens h2 = true) (he : e < st.defer_time) :
    check_sensors st T sens h2 (T + e) =
      .ok (false,
        { st with
          tstamp := T + e
          flag := true
          val_ul := vecUl sens
          val_oh := vecOh h2 sens }, T) := by
  have hactive := active_of_change st sens h2 hedge
  have hdefer : ¬(T + e - T > st.defer_time) := by omega
  have hdefer2 : ¬(st.defer_time < e) := by omega
  rcases hm with hm | hm
  · simp [check_sensors, alertStep, hedge, activePhase, hactive, fireOnEdge, hm,
      defer_expired, hdefer, hdefer2]
  · simp [check_sensors, alertStep, hedge, activePhase, hactive, fireOnEdge, hm,
      defer_expired, hdefer, hdefer2]

/-- Concrete mode 3 instance for the C2 witness. -/
def c2State : AlertState :=
  { mode := 3
    defer_time := 100
    repeat_time := 0
    tstamp := 0
    flag := false
    val_ul := 0
    val_oh := 0
    status := false }

/-- Witness for alert_defer_gate_global: some category fired at T = 50; an
edge on this mode 3 category at T + 10 is suppressed. -/
theorem alert_defer_gate_global_witness :
    check_sensors c2State 50 [(true, false)] false (50 + 10) =
      .ok (false,
        { c2State with
          tstamp := 50 + 10
          flag := true
          val_ul := vecUl [(true, false)]
          val_oh := vecOh false [(true, false)] }, 50) :=
  alert_defer_gate_global c2State [(true, false)] false 50 10 (by decide) (by decide)
    (by decide)

/-! Claim C6 -/

/-- On a mode 1 instance whose stored state vectors already equal the
vectors of the presented inputs, any number of further calls with the
vector unchanged return false, whatever the times and the process-wide
defer timestamp. -/
theorem mode1_unchanged_tail (sens : List (Bool × Bool)) (h2 : Bool)
    (times : List Int) :
    ∀ (st : AlertState) (g : Int), st.mode = 1 →
      st.val_ul = vecUl sens → st.val_oh = vecOh h2 sens →
      firedSeq st g (times.map fun t => (sens, h2, t)) =
        .ok (times.map fun _ => false) := by
  induction times with
  | nil =>
    intro st g _ _ _
    simp [firedSeq]
  | cons t ts ih =>
    intro st g hm hv1 hv2
    have hch : changeB st sens h2 = false := by
      simp [changeB, hv1, hv2, pyAndNot_self]
    cases hA : activeB sens h2 with
    | true =>
      have htail := ih { st with val_ul := vecUl sens, val_oh := vecOh h2 sens } g
        (by simp [hm]) (by simp) (by simp)
      simp [hm] at htail
      simp [firedSeq, check_sensors, alertStep, hch, activePhase, hA, hm, htail]
    | false =>
      have htail := ih
        { st with val_ul := vecUl sens, val_oh := vecOh h2 sens, tstamp := 0, flag := false }
        g (by simp [hm]) (by simp) (by simp)
      simp [hm] at htail
      simp [firedSeq, check_sensors, alertStep, hch, activePhase, hA, hm, htail]

/-- C6: for a mode 1 or mode 2 instance, a rising edge (a monitored bit that
was inactive on the previous tick, i.e. outside the stored vector, and
active now) makes the call return true on that tick for every value of the
process-wide defer timestamp g - no dependency on global defer state - so
the edge fires exactly once, on that tick; and with mode 1 every subsequent
call of an arbitrarily long run of ticks at arbitrary times with the vector
unchanged returns false. -/
theorem alert_edge_mode12_fires_once (st : AlertState) (sens : List (Bool × Bool))
    (h2 : Bool) (g now : Int) (times : List Int) (hm : st.mode = 1 ∨ st.mode = 2)
    (hrt : 0 ≤ st.repeat_time) (hedge : changeB st sens h2 = true) :
    firedSeq st g [(sens, h2, now)] = .ok [true] ∧
    (st.mode = 1 →
      firedSeq st g ((sens, h2, now) :: times.map fun t => (sens, h2, t)) =
        .ok (true :: times.map fun _ => false)) := by
  have hactive := active_of_change st sens h2 hedge
  have hnr : ¬(now - now > st.repeat_time) := by omega
  have hnr2 : ¬(st.repeat_time < 0) := by omega
  rcases hm with hm | hm
  · have hc1 : check_sensors st g sens h2 now =
        .ok (true,
          { st with
            tstamp := now
            flag := true
            val_ul := vecUl sens
            val_oh := vecOh h2 sens }, now) := by
      simp [check_sensors, alertStep, hedge, activePhase, hactive, fireOnEdge, hm,
        repeat_expired, hnr, hnr2]
    have htail := mode1_unchanged_tail sens h2 times
      { st with
        tstamp := now
        flag := true
        val_ul := vecUl sens
        val_oh := vecOh h2 sens } now (by simp [hm]) (by simp) (by simp)
    refine ⟨by simp [firedSeq, hc1], fun _ => by simp [firedSeq, hc1, htail]⟩
  · have hc1 : check_sensors st g sens h2 now =
        .ok (true,
          { st with
            tstamp := now
            flag := true
            val_ul := vecUl sens
            val_oh := vecOh h2 sens }, now) := by
      simp [check_sensors, alertStep, hedge, activePhase, hactive, fireOnEdge, hm,
        repeat_expired, hnr, hnr2]
    refine ⟨by simp [firedSeq, hc1], fun h1 => ?_⟩
    rw [hm] at h1
    exact absurd h1 (by decide)

/-- Concrete mode 1 instance for the C6 witness. -/
def c6State : AlertState :=
  { mode := 1
    defer_time := 100
    repeat_time := 50
    tstamp := 0
    flag := false
    val_ul := 0
    val_oh := 0
    status := false }

/-- Witness for alert_edge_mode12_fires_once: mode 1, rising edge at t = 100
fires, a run of unchanged ticks at t = 250 and t = 300 does not fire
again. -/
theorem alert_edge_mode12_fires_once_witness :
    firedSeq c6State 0 [([(true, false)], false, 100)] = .ok [true] ∧
    (c6State.mode = 1 →
      firedSeq c6State 0
          (([(true, false)], false, 100) ::
            [(250 : Int), 300].map fun t => ([(true, false)], false, t)) =
        .ok (true :: [(250 : Int), 300].map fun _ => false)) :=
  alert_edge_mode12_fires_once c6State [(true, false)] false 0 100 [250, 300]
    (by decide) (by decide) (by decide)

/-! Claim C7 -/

/-- After a mode 3 instance has its flag cleared, calls that present no new
rising edge relative to the running state vectors never fire and keep the
flag cleared, whether or not the condition is still active. -/
theorem mode3_flagless_tail (rest : List (List (Bool × Bool) × Bool × Int)) :
    ∀ (st : AlertState) (g : Int), st.mode = 3 → st.flag = false →
      noNewEdge st.val_ul st.val_oh rest = true →
      firedSeq st g rest = .ok (rest.map fun _ => false) := by
  induction rest with
  | nil =>
    intro st g _ _ _
    simp [firedSeq]
  | cons head tail ih =>
    obtain ⟨sens, h2, now⟩ := head
    intro st g hm hf hne
    simp only [noNewEdge, Bool.and_eq_true, decide_eq_true_eq] at hne
    obtain ⟨⟨hn1, hn2⟩, hrest⟩ := hne
    have hch : changeB st sens h2 = false := by simp [changeB, hn1, hn2]
    cases hA : activeB sens h2 with
    | true =>
      have htail := ih { st with val_ul := vecUl sens, val_oh := vecOh h2 sens } g
        (by simp [hm]) (by simp [hf]) (by simpa using hrest)
      simp [hm, hf] at htail
      simp [firedSeq, check_sensors, alertStep, hch, activePhase, hA, hm, hf, htail]
    | false =>
      have htail := ih
        { st with val_ul := vecUl sens, val_oh := vecOh h2 sens, tstamp := 0, flag := false }
        g (by simp [hm]) (by simp) (by simpa using hrest)
      simp [hm] at htail
      simp [firedSeq, check_sensors, alertStep, hch, activePhase, hA, hm, hf, htail]

/-- C7: on a mode 3 instance with the flag latched and the condition active
but unchanged, once the global defer time has expired the call fires (the
deferred fire), restarts the timestamp and clears the flag; afterwards no
call presenting no new rising edge ever returns true, even while the
condition stays continuously active - only a new edge can fire again. -/
theorem alert_mode3_oneshot_after_defer (st : AlertState) (sens0 : List (Bool × Bool))
    (h20 : Bool) (g now0 : Int) (rest : List (List (Bool × Bool) × Bool × Int))
    (hm : st.mode = 3) (hf : st.flag = true)
    (hn1 : pyAndNot (vecUl sens0) st.val_ul = 0)
    (hn2 : pyAndNot (vecOh h20 sens0) st.val_oh = 0)
    (hact : activeB sens0 h20 = true)
    (hdef : now0 - g > st.defer_time)
    (hne : noNewEdge (vecUl sens0) (vecOh h20 sens0) rest = true) :
    check_sensors st g sens0 h20 now0 =
      .ok (true,
        { st with
          tstamp := now0
          flag := false
          val_ul := vecUl sens0
          val_oh := vecOh h20 sens0 }, now0) ∧
    firedSeq st g ((sens0, h20, now0) :: rest) =
      .ok (true :: rest.map fun _ => false) := by
  have hch : changeB st sens0 h20 = false := by simp [changeB, hn1, hn2]
  have hc : check_sensors st g sens0 h20 now0 =
      .ok (true,
        { st with
          tstamp := now0
          flag := false
          val_ul := vecUl sens0
          val_oh := vecOh h20 sens0 }, now0) := by
    simp [check_sensors, alertStep, hch, activePhase, hact, hm, hf, defer_expired, hdef]
  have htail := mode3_flagless_tail rest
    { st with
      tstamp := now0
      flag := false
      val_ul := vecUl sens0
      val_oh := vecOh h20 sens0 } now0 (by simp [hm]) (by simp) (by simpa using hne)
  exact ⟨hc, by simp [firedSeq, hc, htail]⟩

/-- Concrete mode 3 instance for the C7 witness: flag latched from an earlier
edge, condition bit 0 active. -/
def c7State : AlertState :=
  { mode := 3
    defer_time := 100
    repeat_time := 50
    tstamp := 10
    flag := true
    val_ul := 1
    val_oh := 0
    status := false }

/-- Witness for alert_mode3_oneshot_after_defer: the deferred fire happens at
t = 200, then two more active-but-unchanged calls at t = 400 and t = 600
return false. -/
theorem alert_mode3_oneshot_after_defer_witness :
    check_sensors c7State 0 [(true, false)] false 200 =
      .ok (true,
        { c7State with
          tstamp := 200
          flag := false
          val_ul := vecUl [(true, false)]
          val_oh := vecOh false [(true, false)] }, 200) ∧
    firedSeq c7State 0
        [([(true, false)], false, 200), ([(true, false)], false, 400),
          ([(true, false)], false, 600)] =
      .ok (true :: [([(true, false)], false, 400), ([(true, false)], false, 600)].map
        fun _ => false) :=
  alert_mode3_oneshot_after_defer c7State [(true, false)] false 0 200
    [([(true, false)], false, 400), ([(true, false)], false, 600)]
    (by decide) (by decide) (by decide) (by decide) (by decide) (by decide) (by decide)
